import Mathlib

/-!
Verification development for the declaration and type-construction engine of
the lacc C compiler front end (src/parser/declaration.c).

The source file is translated into a shallow embedding: the mutually
recursive parsing functions become fueled Lean functions over an explicit
parser state (token list, symbol table, scoped namespaces, struct table,
control-flow blocks, reported errors).  A fatal error (report followed by
exit(1) in the C source) is an `Except.error`; a non-fatal report is
appended to the state error log and parsing continues.

Collaborators that live outside declaration.c (the type-tree primitives of
typetree.c, the symbol table of symtab.c, the expression evaluator of
eval.c/expression.c, the statement parser and CFG builder) are modelled
from the specification, each marked with a doc comment starting
"Modelled from the spec:".
-/

namespace Lacc

/-- Discriminant values of basic (non-derived) types, T_VOID .. T_LDOUBLE. -/
inductive BaseK where
  | tVoid | tBool | tChar | tShort | tInt | tLong | tFloat | tDouble | tLdouble
  deriving DecidableEq, Repr

mutual

/--
Modelled from the spec: the type descriptor, "a value describing a C type: a
discriminant plus qualifier bits and, for aggregate/function kinds, a handle
to a member list".  The `basic` constructor with `none` discriminant models
the flat C struct with `.type == -1` (the sentinel placeholder produced by
`get_type_placeholder`).  Struct/union types hold a handle into a separate
table, since their member lists are mutated through the handle.
-/
inductive CType where
  | basic (k : Option BaseK) (uns cst vol : Bool)
  | pointer (next : CType) (cst vol rst : Bool)
  | arrayT (next : CType) (len : Nat)
  | incomplete (next : CType)
  | vla (next : CType) (sym : Nat)
  | func (ret : CType) (params : List Member)
  | tagged (isUnion : Bool) (id : Nat) (cst vol : Bool)

/--
Modelled from the spec: a member record, "one field of a struct/union, one
parameter of a function type, or one case of a placeholder (old-style)
parameter list: name, type, optional bit-field width, optional byte offset,
optional back-reference to its eventual symbol".
-/
inductive Member where
  | mk (name : String) (type : CType) (offset : Nat) (width : Option Nat)
      (sym : Option Nat)

end

def Member.name : Member → String
  | .mk n _ _ _ _ => n

def Member.type : Member → CType
  | .mk _ t _ _ _ => t

def Member.offset : Member → Nat
  | .mk _ _ o _ _ => o

def Member.sym : Member → Option Nat
  | .mk _ _ _ _ s => s

def Member.setType (m : Member) (t : CType) : Member :=
  match m with
  | .mk n _ o w s => .mk n t o w s

def Member.setSym (m : Member) (s : Option Nat) : Member :=
  match m with
  | .mk n t o w _ => .mk n t o w s

def Member.setName (m : Member) (n : String) : Member :=
  match m with
  | .mk _ t o w s => .mk n t o w s

mutual

/-- Modelled from the spec: `type_equal`, structural equality of type descriptors. -/
def type_equal : CType → CType → Bool
  | .basic k u c v, .basic k2 u2 c2 v2 => k == k2 && u == u2 && c == c2 && v == v2
  | .pointer t c v r, .pointer t2 c2 v2 r2 =>
      type_equal t t2 && c == c2 && v == v2 && r == r2
  | .arrayT t n, .arrayT t2 n2 => type_equal t t2 && n == n2
  | .incomplete t, .incomplete t2 => type_equal t t2
  | .vla t s, .vla t2 s2 => type_equal t t2 && s == s2
  | .func r ps, .func r2 ps2 => type_equal r r2 && members_equal ps ps2
  | .tagged u id c v, .tagged u2 id2 c2 v2 =>
      u == u2 && id == id2 && c == c2 && v == v2
  | _, _ => false

def member_equal : Member → Member → Bool
  | .mk n t o w s, .mk n2 t2 o2 w2 s2 =>
      n == n2 && type_equal t t2 && o == o2 && w == w2 && s == s2

def members_equal : List Member → List Member → Bool
  | [], [] => true
  | m :: ms, m2 :: ms2 => member_equal m m2 && members_equal ms ms2
  | _, _ => false

end

def basic_type__void : CType := .basic (some .tVoid) false false false

def basic_type__int : CType := .basic (some .tInt) false false false

def basic_type__char : CType := .basic (some .tChar) false false false

def basic_type__unsigned_long : CType := .basic (some .tLong) true false false

/-- `get_type_placeholder` from the source: the flat type with discriminant -1. -/
def get_type_placeholder : CType := .basic none false false false

/-- `is_type_placeholder` from the source: true exactly when the discriminant is -1. -/
def is_type_placeholder : CType → Bool
  | .basic none _ _ _ => true
  | _ => false

/-- Modelled from the spec: `is_void` type predicate of the type-tree algebra. -/
def is_void : CType → Bool
  | .basic (some .tVoid) _ _ _ => true
  | _ => false

/-- Modelled from the spec: `is_integer` (bool, char, short, int, long kinds). -/
def is_integer : CType → Bool
  | .basic (some .tBool) _ _ _ => true
  | .basic (some .tChar) _ _ _ => true
  | .basic (some .tShort) _ _ _ => true
  | .basic (some .tInt) _ _ _ => true
  | .basic (some .tLong) _ _ _ => true
  | _ => false

/-- The raw is_unsigned flag of the flat type struct. -/
def unsFlag : CType → Bool
  | .basic _ u _ _ => u
  | _ => false

/-- Modelled from the spec: `is_unsigned`, an integer type with the unsigned flag. -/
def is_unsigned (t : CType) : Bool := is_integer t && unsFlag t

/-- Modelled from the spec: `is_signed`, an integer type without the unsigned flag. -/
def is_signed (t : CType) : Bool := is_integer t && !unsFlag t

/-- Modelled from the spec: `is_pointer`. -/
def is_pointer : CType → Bool
  | .pointer _ _ _ _ => true
  | _ => false

/-- Modelled from the spec: `is_array` (fixed, incomplete or variable length). -/
def is_array : CType → Bool
  | .arrayT _ _ => true
  | .incomplete _ => true
  | .vla _ _ => true
  | _ => false

/-- Modelled from the spec: `is_vla`. -/
def is_vla : CType → Bool
  | .vla _ _ => true
  | _ => false

/-- Modelled from the spec: `is_function`. -/
def is_function : CType → Bool
  | .func _ _ => true
  | _ => false

/-- Modelled from the spec: `is_struct_or_union`. -/
def is_struct_or_union : CType → Bool
  | .tagged _ _ _ _ => true
  | _ => false

/-- Modelled from the spec: `is_struct`. -/
def is_struct : CType → Bool
  | .tagged false _ _ _ => true
  | _ => false

/--
Modelled from the spec: `is_variably_modified`, a type containing a
variable-length array anywhere along its derivation chain.
-/
def is_variably_modified : CType → Bool
  | .vla _ _ => true
  | .pointer t _ _ _ => is_variably_modified t
  | .arrayT t _ => is_variably_modified t
  | .incomplete t => is_variably_modified t
  | _ => false

/--
Modelled from the spec: the table record backing one struct/union tag: the
member list owned elsewhere, and the size (0 while the tag is incomplete,
fixed by sealing).
-/
structure StructInfo where
  isUnion : Bool := false
  members : List Member := []
  size : Nat := 0

/-- Size of a basic type kind on the x86-64 target. -/
def sizeBasic : BaseK → Nat
  | .tVoid => 0
  | .tBool => 1
  | .tChar => 1
  | .tShort => 2
  | .tInt => 4
  | .tLong => 8
  | .tFloat => 4
  | .tDouble => 8
  | .tLdouble => 16

/--
Modelled from the spec: `size_of`.  Incomplete arrays and undefined tags
have size 0; structs and unions read their size from the tag table.
-/
def size_of (sts : List StructInfo) : CType → Nat
  | .basic none _ _ _ => 0
  | .basic (some k) _ _ _ => sizeBasic k
  | .pointer _ _ _ _ => 8
  | .arrayT t n => n * size_of sts t
  | .incomplete _ => 0
  | .vla _ _ => 0
  | .func _ _ => 0
  | .tagged _ id _ _ => (sts.getD id {}).size

/--
Modelled from the spec: `is_complete`; "a descriptor is either complete (has
a defined size) or incomplete (array with unknown first dimension, or an
undefined tag)".  A variable-length array counts as a complete element type.
-/
def is_complete (sts : List StructInfo) (t : CType) : Bool :=
  is_vla t || size_of sts t != 0

/-- Modelled from the spec: `type_create_pointer`. -/
def type_create_pointer (t : CType) : CType := .pointer t false false false

/-- Modelled from the spec: `type_create_function` with an empty member list. -/
def type_create_function (ret : CType) : CType := .func ret []

/-- Modelled from the spec: `type_create_array` with a known length. -/
def type_create_array (t : CType) (len : Nat) : CType := .arrayT t len

/-- Modelled from the spec: `type_create_incomplete`, array of unknown first dimension. -/
def type_create_incomplete (t : CType) : CType := .incomplete t

/--
Modelled from the spec: `type_create_vla`, an array whose extent is the
runtime value held by the referenced hidden symbol.
-/
def type_create_vla (t : CType) (sym : Nat) : CType := .vla t sym

/-- Modelled from the spec: `type_next`, the pointee/element/return type. -/
def type_next : CType → CType
  | .pointer t _ _ _ => t
  | .arrayT t _ => t
  | .incomplete t => t
  | .vla t _ => t
  | .func r _ => r
  | t => t

/-- Modelled from the spec: `type_set_const` qualifier setter. -/
def type_set_const : CType → CType
  | .basic k u _ v => .basic k u true v
  | .pointer t _ v r => .pointer t true v r
  | .tagged u id _ v => .tagged u id true v
  | t => t

/-- Modelled from the spec: `type_set_volatile` qualifier setter. -/
def type_set_volatile : CType → CType
  | .basic k u c _ => .basic k u c true
  | .pointer t c _ r => .pointer t c true r
  | .tagged u id c _ => .tagged u id c true
  | t => t

/-- Modelled from the spec: `type_set_restrict` qualifier setter (pointers only). -/
def type_set_restrict : CType → CType
  | .pointer t c v _ => .pointer t c v true
  | t => t

/-- Qualifier bits of the flat type struct, read for `type_apply_qualifiers`. -/
def cstFlag : CType → Bool
  | .basic _ _ c _ => c
  | .pointer _ c _ _ => c
  | .tagged _ _ c _ => c
  | _ => false

def volFlag : CType → Bool
  | .basic _ _ _ v => v
  | .pointer _ _ v _ => v
  | .tagged _ _ _ v => v
  | _ => false

/--
Modelled from the spec: `type_apply_qualifiers`, folding a resolved base
type (typedef or tag) in "preserving any qualifiers already accumulated".
-/
def type_apply_qualifiers (src target : CType) : CType :=
  let src := if cstFlag target then type_set_const src else src
  if volFlag target then type_set_volatile src else src

/--
Modelled from the spec: `type_patch_declarator`.  The inner partial type was
built against a `void` placeholder; the placeholder node located at the end
of the derivation chain is replaced by the outer type built from the suffix.
-/
def type_patch_declarator : CType → CType → CType
  | .basic (some .tVoid) _ _ _, outer => outer
  | .pointer t c v r, outer => .pointer (type_patch_declarator t outer) c v r
  | .arrayT t n, outer => .arrayT (type_patch_declarator t outer) n
  | .incomplete t, outer => .incomplete (type_patch_declarator t outer)
  | .vla t s, outer => .vla (type_patch_declarator t outer) s
  | .func r ps, outer => .func (type_patch_declarator r outer) ps
  | t, _ => t

/-- Modelled from the spec: `nmembers` on a function type value. -/
def nmembers : CType → Nat
  | .func _ ps => ps.length
  | _ => 0

/-- Modelled from the spec: `type_add_member` on a function type value. -/
def ftype_add_member (t : CType) (m : Member) : CType :=
  match t with
  | .func r ps => .func r (ps ++ [m])
  | t => t

/-- Modelled from the spec: `is_vararg`, the member list ends with "...". -/
def is_vararg : CType → Bool
  | .func _ ps => (ps.getLast?.map Member.name) == some "..."
  | _ => false

/-- Modelled from the spec: `find_type_member`, lookup by name in a function type. -/
def find_type_member (t : CType) (name : String) : Option Member :=
  match t with
  | .func _ ps => ps.find? (fun m => m.name == name)
  | _ => none

/-- Replace the member of the given name inside a function type value. -/
def ftype_set_member_type (t : CType) (name : String) (ty : CType) : CType :=
  match t with
  | .func r ps =>
      .func r (ps.map (fun m => if m.name == name then m.setType ty else m))
  | t => t

/--
Modelled from the spec: `type_clean_prototype`; "transient parameter names
stripped from the type after parsing, since they carry no scope-binding
meaning outside their own declaration".
-/
def type_clean_prototype : CType → CType
  | .func r ps => .func r (ps.map (fun m => (m.setName "").setSym none))
  | t => t

/-- IMMEDIATE / DIRECT classification of an evaluated value (struct var). -/
inductive ValKind where
  | immediate
  | direct
  deriving DecidableEq, Repr

/--
Modelled from the spec: the tagged value produced by the expression
collaborator, "compile-time-constant vs. runtime-resident, with an
associated type".  `bits` is the 64-bit pattern of the constant union
(`imm.i` reads it signed, `imm.u` unsigned); `symbol` backs DIRECT values.
-/
structure Var where
  type : CType
  kind : ValKind
  bits : Nat := 0
  symbol : Option Nat := none

/-- The signed 64-bit reading `imm.i` of the constant union. -/
def Var.immI (v : Var) : Int :=
  if v.bits < 2 ^ 63 then (v.bits : Int) else (v.bits : Int) - 2 ^ 64

/-- The unsigned 64-bit reading `imm.u` of the constant union. -/
def Var.immU (v : Var) : Nat := v.bits

/--
Token stream elements.  `lit` stands for a whole expression handed to the
expression collaborator, which returns its attached value (the collaborator
is out of scope: "supplies typed value results from constant and general
expressions; this core only consumes its output value/type and
immediate-vs-runtime classification").
-/
inductive Tok where
  | eof
  | ident (s : String)
  | strtok (s : String)
  | lit (v : Var)
  | lparen | rparen | lbrack | rbrack | lbrace | rbrace
  | star | comma | semi | colon | assign | dots
  | kwVoid | kwBool | kwChar | kwShort | kwInt | kwSigned | kwUnsigned
  | kwLong | kwFloat | kwDouble | kwConst | kwVolatile | kwRestrict
  | kwInline | kwAuto | kwRegister | kwStatic | kwExternSC | kwTypedef
  | kwStruct | kwUnion | kwEnum | kwStaticAssert

/-- Constructor-level token comparison, used by `consume` on exact tokens. -/
def Tok.same : Tok → Tok → Bool
  | .eof, .eof => true
  | .ident a, .ident b => a == b
  | .strtok a, .strtok b => a == b
  | .lparen, .lparen => true
  | .rparen, .rparen => true
  | .lbrack, .lbrack => true
  | .rbrack, .rbrack => true
  | .lbrace, .lbrace => true
  | .rbrace, .rbrace => true
  | .star, .star => true
  | .comma, .comma => true
  | .semi, .semi => true
  | .colon, .colon => true
  | .assign, .assign => true
  | .dots, .dots => true
  | .kwVoid, .kwVoid => true
  | .kwBool, .kwBool => true
  | .kwChar, .kwChar => true
  | .kwShort, .kwShort => true
  | .kwInt, .kwInt => true
  | .kwSigned, .kwSigned => true
  | .kwUnsigned, .kwUnsigned => true
  | .kwLong, .kwLong => true
  | .kwFloat, .kwFloat => true
  | .kwDouble, .kwDouble => true
  | .kwConst, .kwConst => true
  | .kwVolatile, .kwVolatile => true
  | .kwRestrict, .kwRestrict => true
  | .kwInline, .kwInline => true
  | .kwAuto, .kwAuto => true
  | .kwRegister, .kwRegister => true
  | .kwStatic, .kwStatic => true
  | .kwExternSC, .kwExternSC => true
  | .kwTypedef, .kwTypedef => true
  | .kwStruct, .kwStruct => true
  | .kwUnion, .kwUnion => true
  | .kwEnum, .kwEnum => true
  | .kwStaticAssert, .kwStaticAssert => true
  | _, _ => false

/-- Symbol kinds (enum symtype). -/
inductive SymKind where
  | declaration
  | tentative
  | definition
  | typedefName
  | constant
  | tag
  | stringValue
  | temporary
  deriving DecidableEq, Repr

/-- Linkage (enum linkage). -/
inductive Linkage where
  | nolink
  | internal
  | external
  deriving DecidableEq, Repr

/--
Modelled from the spec: the symbol record, "a name bound in one of three
independent namespaces, carrying type, symbol kind, linkage, and scope depth
at which it was introduced", plus the side value slot (enum constant value,
enum-tag defined marker, VLA address back-reference, string value).
-/
structure Symbol where
  name : String
  type : CType
  symtype : SymKind
  linkage : Linkage
  depth : Nat
  value : Int := 0
  vla_address : Option Nat := none
  strval : Option String := none

/-- Modelled from the spec: `is_temporary`, a compiler-created anonymous symbol. -/
def is_temporary (s : Symbol) : Bool := s.symtype == .temporary

/--
One namespace of the symbol table: symbol ids innermost-scope-first, and the
current scope depth.
-/
structure NS where
  ids : List Nat := []
  depth : Nat := 0

/-- The three independent namespaces. -/
inductive NSK where
  | nsIdent
  | nsTag
  | nsLabel
  deriving DecidableEq, Repr

/-- Side effects threaded into a control-flow block, in source order. -/
inductive Effect where
  | vlaAlloc (sym : Nat)
  | castInstr (dst : Nat) (src : Var)
  | copyInstr (dst : Nat) (src : Var)
  | initStore (sym : Nat) (v : Var)

/-- Modelled from the spec: a control-flow block hosting evaluation side effects. -/
structure BlockInfo where
  effects : List Effect := []
  expr : Option Var := none

/--
Modelled from the spec: the definition unit, "the per-declaration container
accumulating the symbol being declared, the set of local symbols, the set of
declared formal parameters, and a root control-flow block".
-/
structure DefUnit where
  symbol : Option Nat := none
  locals : List Nat := []
  params : List Nat := []
  body : Nat := 0
  discarded : Bool := false

/-- The whole parser state threaded through every function. -/
structure PState where
  toks : List Tok
  syms : List Symbol := []
  nsi : NS := {}
  nst : NS := {}
  nsl : NS := {}
  structsTab : List StructInfo := []
  blocks : List BlockInfo := []
  defsTab : List DefUnit := []
  errors : List String := []
  stdC99 : Bool := true

/-- Fatal termination (report followed by exit(1)), or fuel exhaustion. -/
inductive Err where
  | fatal (msg : String)
  | fuelOut
  deriving DecidableEq, Repr

def PState.peek (st : PState) : Tok := st.toks.headD .eof

def PState.adv (st : PState) : PState := { st with toks := st.toks.tail }

/-- `next()`: consume and return the current token. -/
def pnext (st : PState) : Tok × PState := (st.peek, st.adv)

/-- `consume(tok)`: fail fatally if the expected token is absent. -/
def consume (t : Tok) (st : PState) : Except Err (Unit × PState) :=
  if Tok.same st.peek t then .ok ((), st.adv) else .error (.fatal "Unexpected token.")

/-- `consume(IDENTIFIER)`, returning the identifier string. -/
def consumeIdent (st : PState) : Except Err (String × PState) :=
  match st.peek with
  | .ident s => .ok (s, st.adv)
  | _ => .error (.fatal "Expected identifier.")

/-- `consume(STRING)`, returning the string literal. -/
def consumeStr (st : PState) : Except Err (String × PState) :=
  match st.peek with
  | .strtok s => .ok (s, st.adv)
  | _ => .error (.fatal "Expected string.")

/-- Non-fatal `error(...)` report: append to the log and continue. -/
def report (msg : String) (st : PState) : PState :=
  { st with errors := st.errors ++ [msg] }

/-- A violated internal assert of the C source. -/
def assertFail {α : Type} : Except Err (α × PState) := .error (.fatal "Assertion failed.")

def defaultSymbol : Symbol :=
  { name := "", type := basic_type__void, symtype := .declaration,
    linkage := .nolink, depth := 0 }

def PState.symGet (st : PState) (id : Nat) : Symbol := st.syms.getD id defaultSymbol

def PState.addSym (st : PState) (s : Symbol) : PState :=
  { st with syms := st.syms ++ [s] }

def PState.symUpd (st : PState) (id : Nat) (f : Symbol → Symbol) : PState :=
  { st with syms := st.syms.set id (f (st.symGet id)) }

def PState.getNS (st : PState) : NSK → NS
  | .nsIdent => st.nsi
  | .nsTag => st.nst
  | .nsLabel => st.nsl

def PState.setNS (st : PState) (k : NSK) (ns : NS) : PState :=
  match k with
  | .nsIdent => { st with nsi := ns }
  | .nsTag => { st with nst := ns }
  | .nsLabel => { st with nsl := ns }

/-- Modelled from the spec: `current_depth(namespace)`. -/
def current_scope_depth (k : NSK) (st : PState) : Nat := (st.getNS k).depth

/-- Modelled from the spec: `push_scope(namespace)`. -/
def push_scope (k : NSK) (st : PState) : PState :=
  let ns := st.getNS k
  st.setNS k { ns with depth := ns.depth + 1 }

/--
Modelled from the spec: `pop_scope(namespace)`; names bound in the closed
scope stop being visible, the symbol records themselves persist.
-/
def pop_scope (k : NSK) (st : PState) : PState :=
  let ns := st.getNS k
  st.setNS k
    { ids := ns.ids.filter (fun id => (st.symGet id).depth != ns.depth),
      depth := ns.depth - 1 }

/-- Modelled from the spec: `lookup(namespace, name)`, innermost-scope-first. -/
def sym_lookup (k : NSK) (name : String) (st : PState) : Option Nat :=
  (st.getNS k).ids.find? (fun id => (st.symGet id).name == name)

/--
Modelled from the spec: `add(namespace, name, type, kind, linkage)`.  Within
one namespace and one scope a name is unique: re-adding a name bound at the
current depth returns the existing symbol record unchanged.
-/
def sym_add (k : NSK) (name : String) (type : CType) (symtype : SymKind)
    (linkage : Linkage) (st : PState) : Nat × PState :=
  let ns := st.getNS k
  match ns.ids.find?
      (fun id => (st.symGet id).name == name && (st.symGet id).depth == ns.depth) with
  | some id => (id, st)
  | none =>
      let id := st.syms.length
      let sym : Symbol :=
        { name := name, type := type, symtype := symtype, linkage := linkage,
          depth := ns.depth }
      (id, (st.setNS k { ns with ids := id :: ns.ids }).addSym sym)

/-- Modelled from the spec: `make_visible(namespace, symbol)`. -/
def sym_make_visible (k : NSK) (id : Nat) (st : PState) : PState :=
  let ns := st.getNS k
  st.setNS k { ns with ids := id :: ns.ids }

/-- Modelled from the spec: `sym_create_temporary`, a fresh anonymous symbol. -/
def sym_create_temporary (type : CType) (st : PState) : Nat × PState :=
  let id := st.syms.length
  (id, st.addSym
    { name := "", type := type, symtype := .temporary, linkage := .nolink,
      depth := (st.getNS .nsIdent).depth })

def PState.blkGet (st : PState) (id : Nat) : BlockInfo := st.blocks.getD id {}

def PState.blkUpd (st : PState) (id : Nat) (f : BlockInfo → BlockInfo) : PState :=
  { st with blocks := st.blocks.set id (f (st.blkGet id)) }

/-- Modelled from the spec: `new_block(def)`, a fresh control-flow block. -/
def cfg_block_init (st : PState) : Nat × PState :=
  (st.blocks.length, { st with blocks := st.blocks ++ [{}] })

def PState.defGet (st : PState) (id : Nat) : DefUnit := st.defsTab.getD id {}

def PState.defUpd (st : PState) (id : Nat) (f : DefUnit → DefUnit) : PState :=
  { st with defsTab := st.defsTab.set id (f (st.defGet id)) }

/-- Modelled from the spec: `cfg_init()`, a clean definition unit with a body block. -/
def cfg_init (st : PState) : Nat × PState :=
  let (b, st) := cfg_block_init st
  (st.defsTab.length, { st with defsTab := st.defsTab ++ [{ body := b }] })

/-- Modelled from the spec: `cfg_define(def, sym)`, binding the unit to its symbol. -/
def cfg_define (d : Option Nat) (sym : Nat) (st : PState) : PState :=
  match d with
  | some d => st.defUpd d (fun u => { u with symbol := some sym })
  | none => st

/-- Modelled from the spec: `cfg_discard`, dropping a throwaway definition unit. -/
def cfg_discard (d : Nat) (st : PState) : PState :=
  st.defUpd d (fun u => { u with discarded := true })

def addEffect (blk : Nat) (e : Effect) (st : PState) : PState :=
  st.blkUpd blk (fun b => { b with effects := b.effects ++ [e] })

def setBlockExpr (blk : Nat) (v : Var) (st : PState) : PState :=
  st.blkUpd blk (fun b => { b with expr := some v })

/--
Modelled from the spec: `constant_expression()` of the expression
collaborator.  The whole expression is one `lit` token carrying the typed
value result; a non-expression token is a fatal syntax error.
-/
def constant_expression (st : PState) : Except Err (Var × PState) :=
  match st.peek with
  | .lit v => .ok (v, st.adv)
  | _ => .error (.fatal "Expected constant expression.")

/--
Modelled from the spec: `assignment_expression(def, block)` of the
expression collaborator; the resulting value is left as the block trailing
expression.
-/
def assignment_expression (blk : Nat) (st : PState) : Except Err (Nat × PState) :=
  match st.peek with
  | .lit v => .ok (blk, setBlockExpr blk v st.adv)
  | _ => .error (.fatal "Expected expression.")

/-- Modelled from the spec: `eval(def, block, expr) -> value` on the block expression. -/
def evalBlockExpr (blk : Nat) (st : PState) : Except Err (Var × PState) :=
  match (st.blkGet blk).expr with
  | some v => .ok (v, st)
  | none => assertFail

/--
Modelled from the spec: a type-coercing evaluation
(`eval(eval_expr(IR_OP_CAST, val, T))`): a compile-time constant is folded
into a constant of the target type (the stored 64-bit pattern is already
sign- or zero-extended according to the source type), a runtime value is
cast into a fresh anonymous temporary by an instruction appended to the
block.
-/
def eval_cast (blk : Nat) (v : Var) (target : CType) (st : PState) : Var × PState :=
  match v.kind with
  | .immediate => ({ type := target, kind := .immediate, bits := v.bits }, st)
  | .direct =>
      let (tmp, st) := sym_create_temporary target st
      let st := addEffect blk (.castInstr tmp v) st
      ({ type := target, kind := .direct, symbol := some tmp }, st)

/--
Modelled from the spec: `eval_copy`, copying a value "into a fresh anonymous
temporary, guaranteeing that subsequent queries reference a stable,
once-computed value".
-/
def eval_copy (blk : Nat) (v : Var) (st : PState) : Var × PState :=
  let (tmp, st) := sym_create_temporary v.type st
  let st := addEffect blk (.copyInstr tmp v) st
  ({ type := v.type, kind := .direct, symbol := some tmp }, st)

/--
Modelled from the spec: `eval_vla_alloc`, appending to the current block the
allocation side effect that computes and stores the base address of a
variable-length array.
-/
def eval_vla_alloc (blk : Nat) (sym : Nat) (st : PState) : PState :=
  addEffect blk (.vlaAlloc sym) st

/-- `as_expr(val)`: a value used as a block trailing expression. -/
def as_expr (v : Var) : Var := v

/-- `get_typedef` from the source: a name bound as a typedef in ns_ident. -/
def get_typedef (s : String) (st : PState) : Option CType :=
  match sym_lookup .nsIdent s st with
  | some id =>
      if (st.symGet id).symtype == .typedefName then some (st.symGet id).type
      else none
  | none => none

/-- Struct table access. -/
def PState.structGet (st : PState) (id : Nat) : StructInfo := st.structsTab.getD id {}

def PState.structUpd (st : PState) (id : Nat) (f : StructInfo → StructInfo) : PState :=
  { st with structsTab := st.structsTab.set id (f (st.structGet id)) }

/-- Modelled from the spec: `type_create(T_STRUCT or T_UNION)`, a fresh incomplete tag type. -/
def type_create (isUnion : Bool) (st : PState) : CType × PState :=
  (.tagged isUnion st.structsTab.length false false,
    { st with structsTab := st.structsTab ++ [{ isUnion := isUnion }] })

/-- Modelled from the spec: `type_add_member` through a struct/union handle. -/
def struct_add_member (t : CType) (m : Member) (st : PState) : PState :=
  match t with
  | .tagged _ id _ _ => st.structUpd id (fun s => { s with members := s.members ++ [m] })
  | _ => st

/--
Modelled from the spec: `type_seal`, marking the aggregate complete with its
layout fixed; the size becomes nonzero once the member list is final.
-/
def type_seal (t : CType) (st : PState) : PState :=
  match t with
  | .tagged _ id _ _ =>
      st.structUpd id (fun s =>
        let total := s.members.foldl (fun a m => a + size_of st.structsTab m.type) 0
        { s with size := max 1 total })
  | _ => st

/--
Modelled from the spec: `type_add_anonymous_member`, splicing the members of
an unnamed struct/union member in as anonymous/inline members.
-/
def struct_add_anonymous (t src : CType) (st : PState) : PState :=
  match t, src with
  | .tagged _ id _ _, .tagged _ sid _ _ =>
      st.structUpd id (fun s =>
        { s with members := s.members ++ (st.structGet sid).members })
  | _, _ => st

/-- Writing `type.type = T_K` on the flat specifier struct, keeping the other bits. -/
def spec_set_base (t : CType) (k : BaseK) : CType :=
  match t with
  | .basic _ u c v => .basic (some k) u c v
  | t => .basic (some k) false (cstFlag t) (volFlag t)

/-- Reading `type.type == T_K` on the flat specifier struct. -/
def spec_disc_is (t : CType) (k : BaseK) : Bool :=
  match t with
  | .basic (some k2) _ _ _ => k2 == k
  | _ => false

/-- Writing `type.is_unsigned = 1` on the flat specifier struct. -/
def spec_set_unsigned (t : CType) : CType :=
  match t with
  | .basic k _ c v => .basic k true c v
  | t => t

/-- `type_of(sym->type) == kind` for a struct/union tag check. -/
def tag_kind_is (t : CType) (isUnion : Bool) : Bool :=
  match t with
  | .tagged u _ _ _ => u == isUnion
  | _ => false

/-- The zero-initialized `Type type = {0}` local of struct_or_union_declaration. -/
def type_zero : CType := .basic (some .tVoid) false false false

/-- Conversion of a signed 64-bit value to the C int of the enumerator counter. -/
def wrap32 (i : Int) : Int := (i + 2 ^ 31) % 2 ^ 32 - 2 ^ 31

/-- The struct array_param qualifier record of a parameter array declarator. -/
structure ArrayParam where
  is_const : Bool := false
  is_volatile : Bool := false
  is_restrict : Bool := false
  is_static : Bool := false

/-- The qualifier loop of `array_param_qualifiers`. -/
def apq_loop : Nat → ArrayParam → PState → Except Err (ArrayParam × PState)
  | 0, _, _ => .error .fuelOut
  | fuel + 1, cvrs, st =>
    match st.peek with
    | .kwConst => apq_loop fuel { cvrs with is_const := true } st.adv
    | .kwVolatile => apq_loop fuel { cvrs with is_volatile := true } st.adv
    | .kwRestrict => apq_loop fuel { cvrs with is_restrict := true } st.adv
    | _ => .ok (cvrs, st)

/-- `array_param_qualifiers`: optional leading or trailing `static` and qualifiers. -/
def array_param_qualifiers (fuel : Nat) (cvrs : Option ArrayParam) (st : PState) :
    Except Err ((Option ArrayParam) × PState) :=
  match cvrs with
  | none => .ok (none, st)
  | some cvrs => do
    let (cvrs, st) :=
      if st.peek.same .kwStatic then ({ cvrs with is_static := true }, st.adv)
      else (cvrs, st)
    let (cvrs, st) ← apq_loop fuel cvrs st
    let (cvrs, st) :=
      if st.peek.same .kwStatic && !cvrs.is_static then
        ({ cvrs with is_static := true }, st.adv)
      else (cvrs, st)
    .ok (some cvrs, st)

/--
`array_declarator_length`: parse the expression determining the length of an
array.  Outside a definition the dimension is a constant expression
evaluated into a throwaway block; inside one it is a general assignment
expression.  A non-integer dimension type and a negative signed immediate
are fatal; the value is coerced to unsigned long, and a runtime value that
is not already held by an anonymous temporary is copied into a fresh one.
-/
def array_declarator_length (fuel : Nat) (d : Option Nat) (blk : Option Nat)
    (cvrs : Option ArrayParam) (st : PState) : Except Err ((Nat × Option ArrayParam) × PState) := do
  let ((val, b, cvrs), st) ←
    match d with
    | none => do
        let (val, st) ← constant_expression st
        let (b, st) := cfg_block_init st
        (Except.ok ((val, b, cvrs), st) : Except Err _)
    | some _ => do
        let (cvrs, st) ← array_param_qualifiers fuel cvrs st
        match blk with
        | none => assertFail
        | some b => do
            let (b, st) ← assignment_expression b st
            let (val, st) ← evalBlockExpr b st
            (Except.ok ((val, b, cvrs), st) : Except Err _)
  if !is_integer val.type then
    .error (.fatal "Array dimension must be of integer type.")
  else if val.kind == .immediate && is_signed val.type && val.immI < 0 then
    .error (.fatal "Array dimension must be a positive number.")
  else
    let (val, st) :=
      if !type_equal val.type basic_type__unsigned_long then
        eval_cast b val basic_type__unsigned_long st
      else if val.kind == .direct
          && !((val.symbol.map (fun s => is_temporary (st.symGet s))).getD false) then
        eval_copy b val st
      else (val, st)
    if !is_unsigned val.type then assertFail
    else .ok ((b, cvrs), setBlockExpr b (as_expr val) st)

/--
`array_declarator`: parse `[s0][s1]..[sn]` into type `[s0] [s1] .. [sn]
(base)`.  Only the first dimension can be unspecified, yielding an
incomplete type; a runtime dimension yields a variable-length array
referencing the hidden extent symbol.  Returns the block, the built type,
and the static length written through the `static_length` slot when the
caller provided one.
-/
def array_declarator (fuel : Nat) (d : Option Nat) (blk : Option Nat) (base : CType)
    (hasStatic : Bool) (st : PState) : Except Err ((Option Nat × CType × Nat) × PState) :=
  match fuel with
  | 0 => .error .fuelOut
  | fuel + 1 => do
    let ((), st) ← consume .lbrack st
    let ((length, cvrs, isIncomplete, symRef, blk), st) ←
      if st.peek.same .rbrack then
        (Except.ok (((0 : Nat), ({} : ArrayParam), true, (none : Option Nat), blk), st) :
          Except Err _)
      else do
        let ((b, cvrsOut), st) ←
          if hasStatic then
            array_declarator_length fuel d blk (some {}) st
          else
            array_declarator_length fuel d blk none st
        let cvrs := cvrsOut.getD {}
        let (val, st) ← evalBlockExpr b st
        if !type_equal val.type basic_type__unsigned_long then assertFail
        else
          match val.kind with
          | .immediate =>
              (Except.ok ((val.immU, cvrs, false, none, some b), st) : Except Err _)
          | .direct =>
              match val.symbol with
              | none => assertFail
              | some s =>
                  (Except.ok ((0, cvrs, false, some s, some b), st) : Except Err _)
    let ((), st) ← consume .rbrack st
    let ((blk, base), st) ←
      if st.peek.same .lbrack then do
        let ((blk, base, _), st) ← array_declarator fuel d blk base false st
        (Except.ok ((blk, base), st) : Except Err _)
      else (Except.ok ((blk, base), st) : Except Err _)
    if !is_complete st.structsTab base then
      .error (.fatal "Array has incomplete element type.")
    else if hasStatic then
      let ty := type_create_pointer base
      let ty := if cvrs.is_const then type_set_const ty else ty
      let ty := if cvrs.is_volatile then type_set_volatile ty else ty
      let ty := if cvrs.is_restrict then type_set_restrict ty else ty
      .ok ((blk, ty, length), st)
    else if isIncomplete then
      .ok ((blk, type_create_incomplete base, length), st)
    else
      match symRef with
      | some s => .ok ((blk, type_create_vla base s, length), st)
      | none => .ok ((blk, type_create_array base length, length), st)

/--
`pointer`: wrap the base in a pointer, then consume any following
const/volatile/restrict as qualifiers on that pointer.  Each loop iteration
first consumes the pending token (the `*` on entry, thereafter the
qualifier recognized by the previous iteration).
-/
def pointer_loop : Nat → CType → PState → Except Err (CType × PState)
  | 0, _, _ => .error .fuelOut
  | fuel + 1, ty, st =>
    let (_, st) := pnext st
    match st.peek with
    | .kwConst => pointer_loop fuel (type_set_const ty) st
    | .kwVolatile => pointer_loop fuel (type_set_volatile ty) st
    | .kwRestrict => pointer_loop fuel (type_set_restrict ty) st
    | _ => .ok (ty, st)

def pointer (fuel : Nat) (ty : CType) (st : PState) : Except Err (CType × PState) :=
  pointer_loop fuel (type_create_pointer ty) st

/-- The `while (peek().token == MUL)` prefix loop of parameter_declarator. -/
def pd_star_loop : Nat → CType → PState → Except Err (CType × PState)
  | 0, _, _ => .error .fuelOut
  | fuel + 1, base, st =>
    if st.peek.same .star then do
      let (base, st) ← pointer fuel base st
      pd_star_loop fuel base st
    else .ok (base, st)

/--
`identifier_list`: old-style function definition parameter names, all given
placeholder type, to be resolved later from separate declarations.
-/
def identifier_list_loop : Nat → CType → PState → Except Err (CType × PState)
  | 0, _, _ => .error .fuelOut
  | fuel + 1, ty, st => do
    let (s, st) ← consumeIdent st
    if (get_typedef s st).isSome then
      .error (.fatal "Unexpected type in identifier list.")
    else
      let ty := ftype_add_member ty (.mk s get_type_placeholder 0 none none)
      if st.peek.same .comma then
        identifier_list_loop fuel ty (st.adv)
      else .ok (ty, st)

def identifier_list (fuel : Nat) (base : CType) (st : PState) :
    Except Err (CType × PState) :=
  let ty := type_create_function base
  if st.peek.same .rparen then .ok (ty, st)
  else identifier_list_loop fuel ty st

/--
`enumerator_list` body: each identifier defaults to one more than the
previous value (the counter starts at 0), an explicit `= constant`
overrides the counter; each enumerator is bound as a constant symbol in the
ordinary-identifier namespace with its value fixed at declaration time.
-/
def enumerator_list_loop : Nat → Int → PState → Except Err (Unit × PState)
  | 0, _, _ => .error .fuelOut
  | fuel + 1, count, st => do
    let (name, st) ← consumeIdent st
    let ((count : Int), st) ←
      if st.peek.same .assign then do
        let ((), st) ← consume .assign st
        let (val, st) ← constant_expression st
        let st :=
          if !is_integer val.type then
            report "Implicit conversion from non-integer type in enum." st
          else st
        (Except.ok (wrap32 val.immI, st) : Except Err _)
      else (Except.ok (count, st) : Except Err _)
    let (symId, st) := sym_add .nsIdent name basic_type__int .constant .nolink st
    let st := st.symUpd symId (fun s => { s with value := count })
    let count := wrap32 (count + 1)
    if !(st.peek.same .comma) then .ok ((), st)
    else do
      let ((), st) ← consume .comma st
      if st.peek.same .rbrace then .ok ((), st)
      else enumerator_list_loop fuel count st

def enumerator_list (fuel : Nat) (st : PState) : Except Err (Unit × PState) := do
  let ((), st) ← consume .lbrace st
  let ((), st) ← enumerator_list_loop fuel 0 st
  consume .rbrace st

/--
`enum_declaration`: the tag value slot is a defined-marker; a tag found at a
shallower depth than the current scope is shadowed by a fresh tag symbol,
and re-supplying a member list for an already-defined enum tag at the
current depth is a redefinition error.
-/
def enum_declaration (fuel : Nat) (st : PState) : Except Err (Unit × PState) := do
  let ((), st) ← consume .kwEnum st
  match st.peek with
  | .ident name => do
      let (_, st) := pnext st
      let (tagId, st) ←
        match sym_lookup .nsTag name st with
        | none =>
            (Except.ok (sym_add .nsTag name basic_type__int .tag .nolink st) :
              Except Err _)
        | some t =>
            if (st.symGet t).depth < current_scope_depth .nsTag st then
              (Except.ok (sym_add .nsTag name basic_type__int .tag .nolink st) :
                Except Err _)
            else if !is_integer (st.symGet t).type then
              Except.error (.fatal "Tag was previously defined as aggregate type.")
            else (Except.ok (t, st) : Except Err _)
      if st.peek.same .lbrace then
        if (st.symGet tagId).value != 0 then
          .error (.fatal "Redefinition of enum.")
        else do
          let ((), st) ← enumerator_list fuel st
          .ok ((), st.symUpd tagId (fun s => { s with value := 1 }))
      else .ok ((), st)
  | _ => enumerator_list fuel st

/--
`static_assertion`: requires an integer constant expression and a string; a
zero constant raises the string as the error message.
-/
def static_assertion (st : PState) : Except Err (Unit × PState) := do
  let ((), st) ← consume .kwStaticAssert st
  let ((), st) ← consume .lparen st
  let (val, st) ← constant_expression st
  let ((), st) ← consume .comma st
  let (message, st) ← consumeStr st
  if val.kind != .immediate || !is_integer val.type then
    .error (.fatal "Expression in static assertion must be an integer constant.")
  else if val.immI == 0 then
    .error (.fatal message)
  else consume .rparen st

/-- `define_builtin__func__`: static const char __func__[] = sym->name. -/
def define_builtin__func__ (name : String) (st : PState) : Except Err (Unit × PState) :=
  if current_scope_depth .nsIdent st != 1 then assertFail
  else if !st.stdC99 then assertFail
  else
    let ty := type_create_array basic_type__char (name.length + 1)
    let (symId, st) := sym_add .nsIdent "__func__" ty .stringValue .internal st
    .ok ((), st.symUpd symId (fun s => { s with strval := some name }))

/--
`declare_vla`: allocate a dedicated pointer temporary for the base address,
record it as a local of the definition unit, store the back-reference in the
symbol, and append the single allocation side effect to the current block.
-/
def declare_vla (d : Option Nat) (blk : Nat) (symId : Nat) (st : PState) :
    Except Err (Nat × PState) :=
  if !is_vla (st.symGet symId).type then assertFail
  else
    let (addr, st) := sym_create_temporary
        (type_create_pointer (type_next (st.symGet symId).type)) st
    let st :=
      match d with
      | some d => st.defUpd d (fun u => { u with locals := u.locals ++ [addr] })
      | none => st
    let st := st.symUpd symId (fun s => { s with vla_address := some addr })
    .ok (blk, eval_vla_alloc blk symId st)

/--
Modelled from the spec: the initializer collaborator (`initializer(def,
block, sym)` of initializer.c).  It parses the initializer expression into
the block and completes an incomplete array type from the initializer
contents.
-/
def initializerFn (blk : Nat) (symId : Nat) (st : PState) :
    Except Err (Nat × PState) :=
  match st.peek with
  | .lit v =>
      let st := st.adv
      let st := st.symUpd symId (fun s =>
        match s.type with
        | .incomplete t => { s with type := .arrayT t 1 }
        | _ => s)
      .ok (blk, addEffect blk (.initStore symId v) st)
  | _ => .error (.fatal "Invalid initializer.")

/--
Modelled from the spec: the statement parser collaborator `block(def,
parent)` of statement.c, which consumes the brace-delimited function body.
-/
def stmt_block_loop : Nat → Nat → PState → Except Err (Unit × PState)
  | 0, _, _ => .error .fuelOut
  | fuel + 1, depth, st =>
    match pnext st with
    | (.lbrace, st) => stmt_block_loop fuel (depth + 1) st
    | (.rbrace, st) =>
        if depth == 1 then .ok ((), st) else stmt_block_loop fuel (depth - 1) st
    | (.eof, _) => .error (.fatal "Unexpected end of input.")
    | (_, st) => stmt_block_loop fuel depth st

def stmt_block (fuel : Nat) (blk : Nat) (st : PState) : Except Err (Nat × PState) := do
  let ((), st) ← consume .lbrace st
  let ((), st) ← stmt_block_loop fuel 1 st
  .ok (blk, st)

/--
The token set of `case IDENTIFIER: case FIRST(type_specifier): case
FIRST(type_qualifier): case REGISTER: case '{':` in init_declarator — a
token that looks like the start of another declaration, or the opening
brace of a function body.
-/
def is_decl_first : Tok → Bool
  | .ident _ => true
  | .lbrace => true
  | .kwVoid | .kwBool | .kwChar | .kwShort | .kwInt | .kwSigned | .kwUnsigned
  | .kwLong | .kwFloat | .kwDouble | .kwStruct | .kwUnion | .kwEnum => true
  | .kwConst | .kwVolatile | .kwRestrict => true
  | .kwRegister => true
  | _ => false

def defaultMember : Member := .mk "" basic_type__void 0 none none

/-- Write through `param->type` into the member list of a function symbol. -/
def setFuncMemberType (st : PState) (symId : Nat) (i : Nat) (ty : CType) : PState :=
  st.symUpd symId (fun s =>
    { s with type :=
        match s.type with
        | .func r ps => .func r (ps.set i ((ps.getD i defaultMember).setType ty))
        | t => t })

/-- Write through `param->sym` into the member list of a function symbol. -/
def setFuncMemberSym (st : PState) (symId : Nat) (i : Nat) (v : Option Nat) : PState :=
  st.symUpd symId (fun s =>
    { s with type :=
        match s.type with
        | .func r ps => .func r (ps.set i ((ps.getD i defaultMember).setSym v))
        | t => t })

/--
The verification loop at the end of `parameter_declaration_list`: for each
formal parameter of the function type (the member list is shared between
the local type value and def->symbol->type, modelled here by reading it
through the definition unit symbol), a missing name is fatal, a placeholder
type defaults to int, and the parameter symbol — declared old-style, bound
from the prototype scope, or freshly added — is pushed onto def->params in
member order.
-/
def pdl_fixup : Nat → Nat → Nat → PState → Except Err (Unit × PState)
  | 0, _, _, _ => .error .fuelOut
  | fuel + 1, d, i, st =>
    match (st.defGet d).symbol with
    | none => assertFail
    | some fsym =>
      let fty := (st.symGet fsym).type
      if i ≥ nmembers fty then .ok ((), st)
      else
        match fty with
        | .func _ ps =>
          let m := ps.getD i defaultMember
          if m.name.length == 0 then
            .error (.fatal "Missing parameter name.")
          else
            let (m, st) :=
              if is_type_placeholder m.type then
                (m.setType basic_type__int, setFuncMemberType st fsym i basic_type__int)
              else (m, st)
            if is_array m.type then assertFail
            else do
              let (psym, st) ←
                match m.sym with
                | none =>
                    (match sym_lookup .nsIdent m.name st with
                     | some l =>
                         if (st.symGet l).depth == 1 then
                           (Except.ok (l, st) : Except Err _)
                         else
                           (Except.ok
                             (sym_add .nsIdent m.name m.type .definition .nolink st) :
                             Except Err _)
                     | none =>
                         (Except.ok
                           (sym_add .nsIdent m.name m.type .definition .nolink st) :
                           Except Err _))
                | some s =>
                    if (st.symGet s).depth != current_scope_depth .nsIdent st then
                      assertFail
                    else
                      (Except.ok (s, sym_make_visible .nsIdent s st) : Except Err _)
              let st := setFuncMemberSym st fsym i (some psym)
              let st := st.defUpd d (fun u => { u with params := u.params ++ [psym] })
              pdl_fixup fuel d (i + 1) st
        | _ => assertFail

/--
The `case '='` branch of init_declarator: initializer parsing rejects an
extern declaration, a file-scope symbol that was already defined, and a
variable-length array; otherwise the symbol kind becomes definition and the
initializer is parsed.
-/
def init_declarator_assign (d : Option Nat) (parent : Nat) (symId : Nat)
    (st : PState) : Except Err (Nat × PState) := do
  let sym := st.symGet symId
  if sym.symtype == .declaration then
    .error (.fatal "Extern symbol cannot be initialized.")
  else if sym.depth == 0 && sym.symtype == .definition then
    .error (.fatal "Symbol was already defined.")
  else if is_vla sym.type then
    .error (.fatal "Variable length array cannot be initialized.")
  else do
    let ((), st) ← consume .assign st
    let st := st.symUpd symId (fun s => { s with symtype := .definition })
    let (parent, st) ← initializerFn parent symId st
    if size_of st.structsTab (st.symGet symId).type == 0 then assertFail
    else
      let st :=
        if (st.symGet symId).linkage != .nolink then cfg_define d symId st else st
      .ok (parent, st)

/--
The trailing prototype cleanup of init_declarator: an internal-linkage
declaration, or a function symbol that is not (yet) a definition, has the
transient parameter names stripped from its type.
-/
def init_declarator_cleanup (linkage : Linkage) (symId : Nat) (parent : Nat)
    (st : PState) : Except Err (Nat × PState) :=
  if linkage == .internal
      || (is_function (st.symGet symId).type
          && (st.symGet symId).symtype != .definition) then
    .ok (parent, st.symUpd symId (fun s => { s with type := type_clean_prototype s.type }))
  else .ok (parent, st)

mutual

/--
The `while (1) switch (peek())` loop of `declaration_specifiers`: consume
storage-class, type-specifier and qualifier tokens into the flat specifier
type, the storage class slot and the inline flag.
-/
def decl_spec_loop (fuel : Nat) (hasSC hasInline : Bool) (ty : CType)
    (sc : Option Tok) (inl : Bool) (st : PState) :
    Except Err ((CType × Option Tok × Bool) × PState) :=
  match fuel with
  | 0 => .error .fuelOut
  | fuel + 1 =>
    match st.peek with
    | .kwVoid =>
        decl_spec_loop fuel hasSC hasInline (spec_set_base ty .tVoid) sc inl st.adv
    | .kwBool =>
        decl_spec_loop fuel hasSC hasInline (spec_set_base ty .tBool) sc inl st.adv
    | .kwChar =>
        decl_spec_loop fuel hasSC hasInline (spec_set_base ty .tChar) sc inl st.adv
    | .kwShort =>
        decl_spec_loop fuel hasSC hasInline (spec_set_base ty .tShort) sc inl st.adv
    | .kwInt =>
        let ty :=
          if !(spec_disc_is ty .tLong) && !(spec_disc_is ty .tShort) then
            spec_set_base ty .tInt
          else ty
        decl_spec_loop fuel hasSC hasInline ty sc inl st.adv
    | .kwSigned =>
        let ty := if is_type_placeholder ty then spec_set_base ty .tInt else ty
        let st :=
          if is_unsigned ty then
            report "Conflicting signed and unsigned specifiers." st.adv
          else st.adv
        decl_spec_loop fuel hasSC hasInline ty sc inl st
    | .kwUnsigned =>
        let ty := if is_type_placeholder ty then spec_set_base ty .tInt else ty
        let st :=
          if is_unsigned ty then report "Duplicate unsigned specifier." st.adv
          else st.adv
        decl_spec_loop fuel hasSC hasInline (spec_set_unsigned ty) sc inl st
    | .kwLong =>
        let ty :=
          if spec_disc_is ty .tDouble then spec_set_base ty .tLdouble
          else spec_set_base ty .tLong
        decl_spec_loop fuel hasSC hasInline ty sc inl st.adv
    | .kwFloat =>
        decl_spec_loop fuel hasSC hasInline (spec_set_base ty .tFloat) sc inl st.adv
    | .kwDouble =>
        let ty :=
          if spec_disc_is ty .tLong then spec_set_base ty .tLdouble
          else spec_set_base ty .tDouble
        decl_spec_loop fuel hasSC hasInline ty sc inl st.adv
    | .kwConst =>
        decl_spec_loop fuel hasSC hasInline (type_set_const ty) sc inl st.adv
    | .kwVolatile =>
        decl_spec_loop fuel hasSC hasInline (type_set_volatile ty) sc inl st.adv
    | .ident s =>
        (match get_typedef s st with
         | some td =>
             decl_spec_loop fuel hasSC hasInline (type_apply_qualifiers td ty)
               sc inl st.adv
         | none =>
             let ty := if is_type_placeholder ty then spec_set_base ty .tInt else ty
             .ok ((ty, sc, inl), st))
    | .kwStruct => do
        let (other, st) ← struct_or_union_declaration fuel st
        decl_spec_loop fuel hasSC hasInline (type_apply_qualifiers other ty) sc inl st
    | .kwUnion => do
        let (other, st) ← struct_or_union_declaration fuel st
        decl_spec_loop fuel hasSC hasInline (type_apply_qualifiers other ty) sc inl st
    | .kwEnum => do
        let ((), st) ← enum_declaration fuel st
        decl_spec_loop fuel hasSC hasInline (spec_set_base ty .tInt) sc inl st
    | .kwInline =>
        if !hasInline then
          decl_spec_loop fuel hasSC hasInline ty sc inl
            (report "Unexpected inline specifier." st.adv)
        else if inl then
          decl_spec_loop fuel hasSC hasInline ty sc inl
            (report "Multiple inline specifiers." st.adv)
        else
          decl_spec_loop fuel hasSC hasInline ty sc true st.adv
    | .kwAuto | .kwRegister | .kwStatic | .kwExternSC | .kwTypedef =>
        let tok := st.peek
        if !hasSC then
          decl_spec_loop fuel hasSC hasInline ty sc inl
            (report "Unexpected storage class in qualifier list." st.adv)
        else if sc.isSome then
          decl_spec_loop fuel hasSC hasInline ty sc inl
            (report "Multiple storage class specifiers." st.adv)
        else
          decl_spec_loop fuel hasSC hasInline ty (some tok) inl st.adv
    | _ =>
        let ty := if is_type_placeholder ty then spec_set_base ty .tInt else ty
        .ok ((ty, sc, inl), st)

/--
`declaration_specifiers`: parse type, qualifiers and storage class; requires
at least one type specifier or defaults the base type to int.  When the
caller provides no storage-class slot (`hasSC = false`) the input is parsed
as a specifier-qualifier-list and storage classes are reported as errors.
-/
def declaration_specifiers (fuel : Nat) (hasSC hasInline : Bool) (st : PState) :
    Except Err ((CType × Option Tok × Bool) × PState) :=
  match fuel with
  | 0 => .error .fuelOut
  | fuel + 1 =>
      decl_spec_loop fuel hasSC hasInline get_type_placeholder none false st

/--
`struct_or_union_declaration`: tag lookup-or-create; a prior enum tag or a
tag of the other aggregate kind is fatal; a member list following a tag
whose type already has a defined size is a redefinition error, regardless
of the scope depth at which the found tag was declared.
-/
def struct_or_union_declaration (fuel : Nat) (st : PState) :
    Except Err (CType × PState) :=
  match fuel with
  | 0 => .error .fuelOut
  | fuel + 1 => do
    let (kw, st) := pnext st
    let isUnion := !(Tok.same kw .kwStruct)
    let ((symOpt, ty), st) ←
      match st.peek with
      | .ident name => do
          let st := st.adv
          let ((symId : Nat), st) ←
            match sym_lookup .nsTag name st with
            | none =>
                let (ty0, st) := type_create isUnion st
                (Except.ok (sym_add .nsTag name ty0 .tag .nolink st) : Except Err _)
            | some symId =>
                if is_integer (st.symGet symId).type then
                  (Except.error (.fatal "Tag was previously declared as enum.") :
                    Except Err _)
                else if !(tag_kind_is (st.symGet symId).type isUnion) then
                  (Except.error
                    (.fatal "Tag was previously declared as a different aggregate.") :
                    Except Err _)
                else (Except.ok (symId, st) : Except Err _)
          let ty := (st.symGet symId).type
          if st.peek.same .lbrace && size_of st.structsTab ty != 0 then
            (Except.error (.fatal "Redefinition of tag.") : Except Err _)
          else (Except.ok ((some symId, ty), st) : Except Err _)
      | _ => (Except.ok (((none : Option Nat), type_zero), st) : Except Err _)
    if st.peek.same .lbrace then do
      let (ty, st) := if symOpt.isNone then type_create isUnion st else (ty, st)
      let (_, st) := pnext st
      let ((), st) ← member_declaration_list fuel ty st
      if size_of st.structsTab ty == 0 then assertFail
      else do
        let ((), st) ← consume .rbrace st
        .ok (ty, st)
    else .ok (ty, st)

/-- `member_declaration_list`: member declarations followed by sealing the type. -/
def member_declaration_list (fuel : Nat) (ty : CType) (st : PState) :
    Except Err (Unit × PState) :=
  match fuel with
  | 0 => .error .fuelOut
  | fuel + 1 => do
    let ((), st) ← mdl_outer fuel ty st
    .ok ((), type_seal ty st)

/-- The outer do-while of member_declaration_list: one specifier-qualifier list per round. -/
def mdl_outer (fuel : Nat) (ty : CType) (st : PState) : Except Err (Unit × PState) :=
  match fuel with
  | 0 => .error .fuelOut
  | fuel + 1 => do
    let ((declBase, _, _), st) ← declaration_specifiers fuel false false st
    let ((), st) ← mdl_inner fuel ty declBase st
    let ((), st) ← consume .semi st
    if st.peek.same .rbrace then .ok ((), st)
    else mdl_outer fuel ty st

/--
The inner do-while of member_declaration_list: one declarator per round; a
`:` introduces a bit-field of non-negative width on an integer type; a
missing name is legal only for an inline struct/union member.
-/
def mdl_inner (fuel : Nat) (ty declBase : CType) (st : PState) :
    Except Err (Unit × PState) :=
  match fuel with
  | 0 => .error .fuelOut
  | fuel + 1 => do
    let ((_, declTy, nameS), st) ← declarator fuel none none declBase (some "") st
    let name := nameS.getD ""
    let ((), st) ←
      if is_struct_or_union ty && st.peek.same .colon then
        if !is_integer declTy then
          (Except.error (.fatal "Unsupported type for bit-field.") : Except Err _)
        else do
          let ((), st) ← consume .colon st
          let (expr, st) ← constant_expression st
          if is_signed expr.type && expr.immI < 0 then
            (Except.error (.fatal "Negative width in bit-field.") : Except Err _)
          else
            (Except.ok ((),
              struct_add_member ty (.mk name declTy 0 (some expr.immU) none) st) :
              Except Err _)
      else if name.length == 0 then
        if is_struct_or_union declTy then
          (Except.ok ((), struct_add_anonymous ty declTy st) : Except Err _)
        else
          (Except.error (.fatal "Missing name in member declarator.") : Except Err _)
      else
        (Except.ok ((), struct_add_member ty (.mk name declTy 0 none none) st) :
          Except Err _)
    if st.peek.same .comma then do
      let ((), st) ← consume .comma st
      mdl_inner fuel ty declBase st
    else if !(st.peek.same .semi) then
      mdl_inner fuel ty declBase st
    else .ok ((), st)

/--
`parameter_list`: parse a function parameter list into a function type.
When not at parameter scope depth 1 the evaluation happens in a throwaway
block, so that VLA bound code of inner prototypes is not included in the
enclosing CFG.
-/
def parameter_list (fuel : Nat) (d : Option Nat) (parent : Option Nat)
    (base : CType) (st : PState) : Except Err ((Option Nat × CType) × PState) :=
  match fuel with
  | 0 => .error .fuelOut
  | fuel + 1 => do
    let func := type_create_function base
    let (blk, st) :=
      if current_scope_depth .nsIdent st == 1 then (parent, st)
      else
        let (b, st) := cfg_block_init st
        (some b, st)
    let ((blk, func), st) ← parameter_list_loop fuel d blk func st
    if current_scope_depth .nsIdent st == 1 then .ok ((blk, func), st)
    else .ok ((parent, func), st)

/--
The `while (peek().token != ')')` loop of parameter_list: one parameter per
round; a void parameter must be the only one; an array parameter decays to
a pointer; a named parameter is bound as a symbol in the parameter scope; a
trailing `, ...` marks the function variadic.
-/
def parameter_list_loop (fuel : Nat) (d : Option Nat) (blk : Option Nat)
    (func : CType) (st : PState) : Except Err ((Option Nat × CType) × PState) :=
  match fuel with
  | 0 => .error .fuelOut
  | fuel + 1 =>
    if st.peek.same .rparen then .ok ((blk, func), st)
    else do
      let ((base, _, _), st) ← declaration_specifiers fuel false false st
      let ((blk, base, nameS, lenS), st) ←
        parameter_declarator fuel d blk base (some "") (some 0) st
      if is_void base then
        if nmembers func != 0 then
          .error (.fatal "Incomplete type in parameter list.")
        else .ok ((blk, func), st)
      else
        let base := if is_array base then type_create_pointer (type_next base) else base
        let name := nameS.getD ""
        let length := lenS.getD 0
        let ((symOpt : Option Nat), st) :=
          if name.length != 0 then
            let (sid, st) := sym_add .nsIdent name base .definition .nolink st
            (some sid, st)
          else (none, st)
        let func := ftype_add_member func (.mk name base length none symOpt)
        if !(st.peek.same .comma) then .ok ((blk, func), st)
        else do
          let ((), st) ← consume .comma st
          if st.peek.same .dots then do
            let ((), st) ← consume .dots st
            if is_vararg func then assertFail
            else
              let func := ftype_add_member func (.mk "..." basic_type__void 0 none none)
              if !(is_vararg func) then assertFail
              else .ok ((blk, func), st)
          else parameter_list_loop fuel d blk func st

/--
`parameter_declarator`: a pointer prefix followed by a direct declarator.
-/
def parameter_declarator (fuel : Nat) (d : Option Nat) (blk : Option Nat)
    (base : CType) (name : Option String) (len : Option Nat) (st : PState) :
    Except Err ((Option Nat × CType × Option String × Option Nat) × PState) :=
  match fuel with
  | 0 => .error .fuelOut
  | fuel + 1 => do
    let (base, st) ← pd_star_loop fuel base st
    direct_declarator fuel d blk base name len st

/--
`direct_declarator`: a bare identifier, or a parenthesized nested declarator
built against the `void` sentinel head, followed by an array or function
suffix.  When the inner declarator produced a non-void head, the outer type
built from the suffix is patched into the placeholder located inside it.
-/
def direct_declarator (fuel : Nat) (d : Option Nat) (blk : Option Nat)
    (base : CType) (name : Option String) (len : Option Nat) (st : PState) :
    Except Err ((Option Nat × CType × Option String × Option Nat) × PState) :=
  match fuel with
  | 0 => .error .fuelOut
  | fuel + 1 => do
    let ((head, blk, name, len), st) ←
      match st.peek with
      | .ident s =>
          (match name with
           | none =>
               (Except.error (.fatal "Unexpected identifier in abstract declarator.") :
                 Except Err _)
           | some _ =>
               (Except.ok ((basic_type__void, blk, some s, len), st.adv) :
                 Except Err _))
      | .lparen => do
          let st := st.adv
          let ((blk, head, name), st) ← declarator fuel d blk basic_type__void name st
          let ((), st) ← consume .rparen st
          let len := if !(is_void head) then none else len
          (Except.ok ((head, blk, name, len), st) : Except Err _)
      | _ => (Except.ok ((basic_type__void, blk, name, len), st) : Except Err _)
    let ((blk, ty, len), st) ←
      match st.peek with
      | .lbrack => do
          let ((blk, ty, l), st) ← array_declarator fuel d blk base len.isSome st
          (Except.ok ((blk, ty, if len.isSome then some l else len), st) : Except Err _)
      | .lparen => do
          let st := st.adv
          let t := st.peek
          let st := push_scope .nsTag st
          let st := push_scope .nsIdent st
          let ((blk, ty), st) ←
            (match t with
             | .ident s =>
                 if (get_typedef s st).isNone then do
                   let (ty, st) ← identifier_list fuel base st
                   (Except.ok ((blk, ty), st) : Except Err _)
                 else parameter_list fuel d blk base st
             | _ => parameter_list fuel d blk base st)
          let st := pop_scope .nsIdent st
          let st := pop_scope .nsTag st
          let ((), st) ← consume .rparen st
          (Except.ok ((blk, ty, len), st) : Except Err _)
      | _ => (Except.ok ((blk, base, len), st) : Except Err _)
    let ty := if !(is_void head) then type_patch_declarator head ty else ty
    .ok ((blk, ty, name, len), st)

/-- `declarator`: a parameter declarator with no static-length slot. -/
def declarator (fuel : Nat) (d : Option Nat) (blk : Option Nat) (base : CType)
    (name : Option String) (st : PState) :
    Except Err ((Option Nat × CType × Option String) × PState) :=
  match fuel with
  | 0 => .error .fuelOut
  | fuel + 1 => do
    let ((blk, ty, name, _), st) ← parameter_declarator fuel d blk base name none st
    .ok ((blk, ty, name), st)

/--
`parameter_declaration_list`: old-style parameter declarations before the
function body opening brace, followed by the verification loop over the
formal parameters.
-/
def parameter_declaration_list (fuel : Nat) (d : Option Nat) (blk : Nat)
    (ty : CType) (st : PState) : Except Err (Nat × PState) :=
  match fuel with
  | 0 => .error .fuelOut
  | fuel + 1 =>
    if !(is_function ty) then assertFail
    else if current_scope_depth .nsIdent st != 1 then assertFail
    else do
      let (blk, st) ← pdl_loop fuel d blk st
      match d with
      | none => assertFail
      | some dd => do
          let ((), st) ← pdl_fixup fuel dd 0 st
          .ok (blk, st)
termination_by structural fuel

/-- The `while (peek().token != '{') declaration(def, block)` loop. -/
def pdl_loop (fuel : Nat) (d : Option Nat) (blk : Nat) (st : PState) :
    Except Err (Nat × PState) :=
  match fuel with
  | 0 => .error .fuelOut
  | fuel + 1 =>
    if st.peek.same .lbrace then .ok (blk, st)
    else do
      let (blk, st) ← declaration fuel d blk st
      pdl_loop fuel d blk st
termination_by structural fuel

/--
`init_declarator`: parse one declarator against the base type, adjust symbol
kind and linkage from the type, insert the symbol, handle the scope-depth
specific bookkeeping, and dispatch on the next token to initializer parsing
or function body parsing.
-/
def init_declarator (fuel : Nat) (d : Option Nat) (parent : Nat) (base : CType)
    (symtype : SymKind) (linkage : Linkage) (st : PState) :
    Except Err (Nat × PState) :=
  match fuel with
  | 0 => .error .fuelOut
  | fuel + 1 => do
    let ((parent, ty, nameS), st) ←
      if linkage == .internal && current_scope_depth .nsIdent st != 0 then do
        let (b, st) := cfg_block_init st
        let ((_, ty, nameS), st) ← declarator fuel d (some b) base (some "") st
        (Except.ok ((parent, ty, nameS), st) : Except Err _)
      else do
        let ((blkO, ty, nameS), st) ← declarator fuel d (some parent) base (some "") st
        match blkO with
        | some p => (Except.ok ((p, ty, nameS), st) : Except Err _)
        | none => assertFail
    let name := nameS.getD ""
    if name.length == 0 then .ok (parent, st)
    else do
      let ((symtype, linkage), st) ←
        if symtype == .typedefName then
          (Except.ok ((symtype, linkage), st) : Except Err _)
        else if is_function ty then
          let symtype := SymKind.declaration
          let linkage := if linkage == .nolink then Linkage.external else linkage
          if linkage == .internal && current_scope_depth .nsIdent st != 0 then
            (Except.error (.fatal "Cannot declare static function in block scope.") :
              Except Err _)
          else (Except.ok ((symtype, linkage), st) : Except Err _)
        else if is_variably_modified ty then
          if current_scope_depth .nsIdent st == 0 then
            (Except.error (.fatal "Invalid variably modified type at file scope.") :
              Except Err _)
          else if linkage != .nolink && !(is_pointer ty && linkage == .internal) then
            (Except.error
              (.fatal "Invalid linkage for block scoped variably modified type.") :
              Except Err _)
          else (Except.ok ((symtype, linkage), st) : Except Err _)
        else (Except.ok ((symtype, linkage), st) : Except Err _)
      let (symId, st) := sym_add .nsIdent name ty symtype linkage st
      let (parent, st) ←
        match current_scope_depth .nsIdent st with
        | 0 => (Except.ok (parent, st) : Except Err _)
        | 1 =>
            (match d with
             | none => assertFail
             | some dd =>
                 match (st.defGet dd).symbol with
                 | none => assertFail
                 | some fsym =>
                     let param := find_type_member (st.symGet fsym).type name
                     let st :=
                       if is_array ty then
                         st.symUpd symId (fun s =>
                           { s with type := type_create_pointer (type_next ty) })
                       else st
                     match param with
                     | some m =>
                         if is_type_placeholder m.type then
                           let newTy := (st.symGet symId).type
                           let st := st.symUpd fsym (fun s =>
                             { s with type := ftype_set_member_type s.type name newTy })
                           (Except.ok (parent, st) : Except Err _)
                         else
                           (Except.error (.fatal "Invalid parameter declaration.") :
                             Except Err _)
                     | none =>
                         (Except.error (.fatal "Invalid parameter declaration.") :
                           Except Err _))
        | _ + 2 =>
            if symtype == .definition then
              if linkage != .nolink then assertFail
              else
                let st :=
                  match d with
                  | some dd =>
                      st.defUpd dd (fun u => { u with locals := u.locals ++ [symId] })
                  | none => st
                if is_vla ty then declare_vla d parent symId st
                else (Except.ok (parent, st) : Except Err _)
            else (Except.ok (parent, st) : Except Err _)
      if st.peek.same .assign then do
        let (parent, st) ← init_declarator_assign d parent symId st
        init_declarator_cleanup linkage symId parent st
      else if is_decl_first st.peek then
        if (st.symGet symId).linkage == .nolink then assertFail
        else if is_function (st.symGet symId).type then do
          let st := st.symUpd symId (fun s => { s with symtype := .definition })
          let st := cfg_define d symId st
          let st := push_scope .nsLabel st
          let st := push_scope .nsIdent st
          let (parent, st) ← parameter_declaration_list fuel d parent ty st
          let ((), st) ←
            if st.stdC99 then define_builtin__func__ (st.symGet symId).name st
            else (Except.ok ((), st) : Except Err _)
          let (parent, st) ← stmt_block fuel parent st
          let st := pop_scope .nsLabel st
          let st := pop_scope .nsIdent st
          .ok (parent, st)
        else init_declarator_cleanup linkage symId parent st
      else init_declarator_cleanup linkage symId parent st
termination_by structural fuel

/--
`declaration`: a static assertion, or a specifier parse determining symbol
kind and linkage followed by the comma-separated declarator list.
-/
def declaration (fuel : Nat) (d : Option Nat) (parent : Nat) (st : PState) :
    Except Err (Nat × PState) :=
  match fuel with
  | 0 => .error .fuelOut
  | fuel + 1 =>
    if st.peek.same .kwStaticAssert then do
      let ((), st) ← static_assertion st
      let ((), st) ← consume .semi st
      .ok (parent, st)
    else do
      let ((base, sc, _inl), st) ← declaration_specifiers fuel true true st
      let (symtype, linkage) :=
        match sc with
        | some .kwExternSC => (SymKind.declaration, Linkage.external)
        | some .kwStatic => (SymKind.tentative, Linkage.internal)
        | some .kwTypedef => (SymKind.typedefName, Linkage.nolink)
        | _ =>
            if current_scope_depth .nsIdent st == 0 then
              (SymKind.tentative, Linkage.external)
            else (SymKind.definition, Linkage.nolink)
      declaration_loop fuel d parent base symtype linkage st
termination_by structural fuel

/--
The `while (1)` declarator loop of `declaration`: each internal/external
declarator gets an isolated definition unit, discarded unless it received a
symbol; a function definition terminates the whole declaration immediately.
-/
def declaration_loop (fuel : Nat) (d : Option Nat) (parent : Nat) (base : CType)
    (symtype : SymKind) (linkage : Linkage) (st : PState) :
    Except Err (Nat × PState) :=
  match fuel with
  | 0 => .error .fuelOut
  | fuel + 1 => do
    let ((stop, parent), st) ←
      if linkage == .internal || linkage == .external then do
        let (decl, st) := cfg_init st
        let body := (st.defGet decl).body
        let (_, st) ← init_declarator fuel (some decl) body base symtype linkage st
        let st := if (st.defGet decl).symbol.isNone then cfg_discard decl st else st
        match (st.defGet decl).symbol with
        | some s =>
            if is_function (st.symGet s).type then
              (Except.ok ((true, parent), st) : Except Err _)
            else (Except.ok ((false, parent), st) : Except Err _)
        | none => (Except.ok ((false, parent), st) : Except Err _)
      else do
        let (parent, st) ← init_declarator fuel d parent base symtype linkage st
        (Except.ok ((false, parent), st) : Except Err _)
    if stop then .ok (parent, st)
    else if st.peek.same .comma then
      declaration_loop fuel d parent base symtype linkage st.adv
    else do
      let ((), st) ← consume .semi st
      .ok (parent, st)
termination_by structural fuel

end

/-- The parsed result of a run, disregarding the final state. -/
def resOk {α : Type} : Except Err (α × PState) → Option α
  | .ok (a, _) => some a
  | _ => none

/-- The final state of a successful run. -/
def resState {α : Type} : Except Err (α × PState) → Option PState
  | .ok (_, st) => some st
  | _ => none

/-- The message of a fatal (exit(1)) run. -/
def resFatal {α : Type} : Except Err (α × PState) → Option String
  | .error (.fatal m) => some m
  | _ => none

/-- The non-fatal error log of a successful run. -/
def resErrors {α : Type} : Except Err (α × PState) → Option (List String)
  | .ok (_, st) => some st.errors
  | _ => none

/-- The type built by a successful `declarator` run. -/
def declResType : Except Err ((Option Nat × CType × Option String) × PState) →
    Option CType
  | .ok ((_, ty, _), _) => some ty
  | _ => none

/-- The name captured by a successful `declarator` run. -/
def declResName : Except Err ((Option Nat × CType × Option String) × PState) →
    Option String
  | .ok ((_, _, n), _) => n
  | _ => none

end Lacc

open Lacc

/-- An unsigned long immediate dimension expression token. -/
def ulit (n : Nat) : Tok :=
  .lit { type := basic_type__unsigned_long, kind := .immediate, bits := n }

/-- An int immediate dimension expression token (64-bit pattern `n`). -/
def ilit (n : Nat) : Tok :=
  .lit { type := basic_type__int, kind := .immediate, bits := n }

/-- Token stream of the declarator `(*f)(int)`. -/
def c1_state : PState :=
  { toks := [.lparen, .star, .ident "f", .rparen, .lparen, .kwInt, .rparen] }

/-- Token stream of the declarator `x[d0][d1]`, each `di` a dimension token list. -/
def c2_state (d0 d1 : List Tok) : PState :=
  { toks := [Tok.ident "x", Tok.lbrack] ++ d0 ++ [Tok.rbrack, Tok.lbrack] ++ d1
      ++ [Tok.rbrack] }

/--
C1.  For every base type `T`, parsing the declarator `(*f)(int)` against `T`
builds the inner partial type `pointer to void` against the void
placeholder, and patching substitutes the outer function type for the
placeholder: the resulting type tree decomposes as outer kind = pointer,
pointee kind = function, return type = `T`, and a single (unnamed)
parameter of type int; the declared name is `f`.  The last conjunct states
the patching rule itself: the placeholder inside the inner tree
`pointer to void` is replaced by the outer type built from the suffix.
-/
theorem claim_C1_declarator_patch_roundtrip :
    (∀ T : CType,
      declResType (declarator 64 none none T (some "") c1_state) =
        some (.pointer (.func T [Member.mk "" basic_type__int 0 none none])
          false false false)) ∧
    (∀ T : CType,
      declResName (declarator 64 none none T (some "") c1_state) = some "f") ∧
    (∀ outer : CType,
      type_patch_declarator (.pointer basic_type__void false false false) outer =
        .pointer outer false false false) :=
  ⟨fun _ => rfl, fun _ => rfl, fun _ => rfl⟩

/--
C2.  Array declarator chains nest right-to-left but read left-to-right:
for every element type `pointer to U` and dimensions `a` and `b+1`,
`x[a][b+1]` yields `array[a] of array[b+1] of pointer to U` (also shown on
the int-dimension instance `char x[3][5]`); eliding the leftmost dimension
yields the incomplete array `incomplete of array[b+1] of pointer to U`; and
eliding the inner dimension, as in `x[a][]`, is fatal with the
incomplete-element-type error.
-/
theorem claim_C2_array_chain_and_elision :
    (∀ (U : CType) (a b : Nat),
      declResType (declarator 64 none none (.pointer U false false false) (some "")
          (c2_state [ulit a] [ulit (b + 1)])) =
        some (.arrayT (.arrayT (.pointer U false false false) (b + 1)) a)) ∧
    (declResType (declarator 64 none none basic_type__char (some "")
          (c2_state [ilit 3] [ilit 5])) =
        some (.arrayT (.arrayT basic_type__char 5) 3)) ∧
    (∀ (U : CType) (b : Nat),
      declResType (declarator 64 none none (.pointer U false false false) (some "")
          (c2_state [] [ulit (b + 1)])) =
        some (.incomplete (.arrayT (.pointer U false false false) (b + 1)))) ∧
    (∀ (U : CType) (a : Nat),
      resFatal (declarator 64 none none (.pointer U false false false) (some "")
          (c2_state [ulit a] [])) =
        some "Array has incomplete element type.") :=
  ⟨fun _ _ _ => rfl, rfl, fun _ _ => rfl, fun _ _ => rfl⟩

/-- A specifier-parse state over the given tokens, with no prior symbols. -/
def specState (ts : List Tok) : PState := { toks := ts }

/-- A state where `T` is bound as a typedef for `U` at file scope. -/
def c4_state (U : CType) (ts : List Tok) : PState :=
  { toks := ts,
    syms := [{ name := "T", type := U, symtype := .typedefName,
               linkage := .nolink, depth := 0 }],
    nsi := { ids := [0], depth := 0 } }

/--
C4, counterexample.  With `T` bound as a typedef for unsigned long, parsing
the specifiers `int T x` commits the base type int and then still resolves
the identifier `T` as a typedef: the specifier parser consumes `T` and
returns the typedef's type (leaving only `x` in the stream) instead of
terminating at `T` with the committed base type int.  This contradicts the
claim that an identifier resolves as a typedef name only when no other
specifier has yet committed a base type, and that once a base type exists
an identifier token terminates specifier parsing.
-/
theorem claim_C4_cex_typedef_resolves_after_base :
    resOk (declaration_specifiers 64 true true
        (c4_state basic_type__unsigned_long [.kwInt, .ident "T", .ident "x"])) =
      some (basic_type__unsigned_long, none, false) ∧
    (resState (declaration_specifiers 64 true true
        (c4_state basic_type__unsigned_long [.kwInt, .ident "T", .ident "x"]))).map
        PState.toks =
      some [.ident "x"] :=
  ⟨rfl, rfl⟩

/--
C4, amended.  In the specifier parser an identifier token resolves as a
typedef name whenever the typedef lookup succeeds, regardless of whether a
base type has already been committed — the typedef's type replaces the
accumulated base (folding in the accumulated qualifiers); an identifier
that is not a typedef name terminates specifier parsing and is left for the
declarator.
-/
theorem claim_C4_typedef_resolution :
    (∀ u : CType,
      resOk (declaration_specifiers 64 true true
          (c4_state (.pointer u false false false) [.kwInt, .ident "T", .ident "x"])) =
        some (.pointer u false false false, none, false)) ∧
    (∀ u : CType,
      (resState (declaration_specifiers 64 true true
          (c4_state (.pointer u false false false)
            [.kwInt, .ident "T", .ident "x"]))).map PState.toks =
        some [.ident "x"]) ∧
    (resOk (declaration_specifiers 64 true true
        (c4_state basic_type__unsigned_long [.kwInt, .ident "x", .semi])) =
      some (basic_type__int, none, false)) ∧
    ((resState (declaration_specifiers 64 true true
        (c4_state basic_type__unsigned_long [.kwInt, .ident "x", .semi]))).map
        PState.toks =
      some [.ident "x", .semi]) :=
  ⟨fun _ => rfl, fun _ => rfl, rfl, rfl⟩

/--
C5, counterexample.  A duplicated storage class (`static static int x`) is a
detected specifier violation that is reported but does not halt parsing:
the run succeeds (returning type int with storage class static) with the
error logged.  This is an exception other than the signed/unsigned
specifier conflicts, contradicting the claim that those are the only
non-fatal detected violations.
-/
theorem claim_C5_cex_storage_class_error_continues :
    resOk (declaration_specifiers 64 true true
        (specState [.kwStatic, .kwStatic, .kwInt, .ident "x"])) =
      some (basic_type__int, some .kwStatic, false) ∧
    resErrors (declaration_specifiers 64 true true
        (specState [.kwStatic, .kwStatic, .kwInt, .ident "x"])) =
      some ["Multiple storage class specifiers."] :=
  ⟨rfl, rfl⟩

/-- A non-integer (double) immediate expression token. -/
def dlit : Tok :=
  .lit { type := .basic (some .tDouble) false false false, kind := .immediate, bits := 0 }

/--
C5, amended.  Every detected violation terminates the compilation after
reporting, except these, which report an error and continue: a conflicting
`signed` after `unsigned`, a duplicate `unsigned`, an `inline` specifier
where none is allowed, a repeated `inline`, a storage class inside a
specifier-qualifier list, a repeated storage class, and a non-integer
enumerator value.  (A representative fatal violation — a failing static
assertion — is shown last for contrast.)
-/
theorem claim_C5_nonfatal_specifier_reports :
    (resErrors (declaration_specifiers 64 true true
        (specState [.kwUnsigned, .kwSigned, .semi])) =
      some ["Conflicting signed and unsigned specifiers."]) ∧
    (resErrors (declaration_specifiers 64 true true
        (specState [.kwUnsigned, .kwUnsigned, .semi])) =
      some ["Duplicate unsigned specifier."]) ∧
    (resErrors (declaration_specifiers 64 false false
        (specState [.kwInline, .kwInt, .semi])) =
      some ["Unexpected inline specifier."]) ∧
    (resErrors (declaration_specifiers 64 true true
        (specState [.kwInline, .kwInline, .kwInt, .semi])) =
      some ["Multiple inline specifiers."]) ∧
    (resErrors (declaration_specifiers 64 false false
        (specState [.kwStatic, .kwInt, .semi])) =
      some ["Unexpected storage class in qualifier list."]) ∧
    (resErrors (declaration_specifiers 64 true true
        (specState [.kwStatic, .kwExternSC, .kwInt, .semi])) =
      some ["Multiple storage class specifiers."]) ∧
    (resErrors (enumerator_list 64
        (specState [.lbrace, .ident "A", .assign, dlit, .rbrace])) =
      some ["Implicit conversion from non-integer type in enum."]) ∧
    (resFatal (static_assertion
        (specState [.kwStaticAssert, .lparen, ilit 0, .comma, .strtok "msg",
          .rparen])) =
      some "msg") :=
  ⟨rfl, rfl, rfl, rfl, rfl, rfl, rfl, rfl⟩

/-- Token stream of `enum E { A, B = 5, C }`. -/
def c6_state : PState :=
  { toks := [.kwEnum, .ident "E", .lbrace, .ident "A", .comma, .ident "B",
      .assign, ilit 5, .comma, .ident "C", .rbrace] }

/--
C6.  Parsing `enum E { A, B = 5, C }` binds each enumerator as a constant
symbol (not a variable) with no linkage in the ordinary-identifier
namespace: A = 0 (the counter starts at 0), B = 5 (set by the explicit
constant expression), C = 6 (one more than the previous value); the tag E
is marked defined.  The second conjunct shows A, B, C resolvable in the
ordinary-identifier namespace.
-/
theorem claim_C6_enumerator_values :
    ((resState (enum_declaration 64 c6_state)).map (fun st =>
        st.syms.map (fun s => (s.name, s.symtype, s.linkage, s.value))) =
      some [("E", .tag, .nolink, 1), ("A", .constant, .nolink, 0),
        ("B", .constant, .nolink, 5), ("C", .constant, .nolink, 6)]) ∧
    ((resState (enum_declaration 64 c6_state)).map (fun st =>
        (sym_lookup .nsIdent "A" st, sym_lookup .nsIdent "B" st,
         sym_lookup .nsIdent "C" st)) =
      some (some 1, some 2, some 3)) :=
  ⟨rfl, rfl⟩

/--
A state for the C9 struct scenario: tag `S` bound at depth `dSym` to a
complete (sealed, size 4) struct, current tag-namespace depth `dCur`, and a
member list `{ int m ; }` following `struct S` in the token stream.
-/
def c9_struct_state (dSym dCur : Nat) : PState :=
  { toks := [.kwStruct, .ident "S", .lbrace, .kwInt, .ident "m", .semi, .rbrace],
    syms := [{ name := "S", type := .tagged false 0 false false, symtype := .tag,
               linkage := .nolink, depth := dSym }],
    nst := { ids := [0], depth := dCur },
    structsTab := [{ isUnion := false,
                     members := [Member.mk "m" basic_type__int 0 none none],
                     size := 4 }] }

/-- A state for the C9 enum scenarios: tag `E` already defined at depth 0. -/
def c9_enum_state (dCur : Nat) : PState :=
  { toks := [.kwEnum, .ident "E", .lbrace, .ident "A", .rbrace],
    syms := [{ name := "E", type := basic_type__int, symtype := .tag,
               linkage := .nolink, depth := 0, value := 1 }],
    nst := { ids := [0], depth := dCur },
    nsi := { ids := [], depth := dCur } }

/--
C9.  The struct/union redefinition check ignores scope depth: for every
depth `dSym` of the found complete struct tag and every current depth
`dCur`, a following member list is rejected as a redefinition (first
conjunct) — no shadowing tag is created.  Enum tags behave differently: a
defined enum tag found at depth 0 with current depth 1 is shadowed by a
fresh tag symbol at depth 1 and the member list is accepted without any
error (second and third conjuncts), while the same defined enum tag found
at the current depth is a redefinition error (fourth conjunct).
-/
theorem claim_C9_struct_redefinition_ignores_depth :
    (∀ dSym dCur : Nat,
      resFatal (struct_or_union_declaration 64 (c9_struct_state dSym dCur)) =
        some "Redefinition of tag.") ∧
    (resErrors (enum_declaration 64 (c9_enum_state 1)) = some []) ∧
    ((resState (enum_declaration 64 (c9_enum_state 1))).map (fun st =>
        st.syms.map (fun s => (s.name, s.symtype, s.depth, s.value))) =
      some [("E", .tag, 0, 1), ("E", .tag, 1, 1), ("A", .constant, 1, 0)]) ∧
    (resFatal (enum_declaration 64 (c9_enum_state 0)) =
      some "Redefinition of enum.") :=
  ⟨fun _ _ => rfl, rfl, rfl, rfl⟩

/-- An unsigned int immediate dimension token (64-bit pattern `n`, zero-extended). -/
def uintlit (n : Nat) : Tok :=
  .lit { type := .basic (some .tInt) true false false, kind := .immediate, bits := n }

/-- The dimension-token state `[ d ]` for a direct array_declarator run. -/
def c10_state (d : Tok) : PState := { toks := [.lbrack, d, .rbrack] }

/-- A runtime (non-immediate) value of signed int type held by symbol 0. -/
def c10_direct_var : Var :=
  { type := basic_type__int, kind := .direct, symbol := some 0 }

/-- A state owning one definition unit and block, with `n` a declared unsigned long. -/
def c10_direct_state (v : Var) : PState :=
  { toks := [.lbrack, .lit v, .rbrack],
    syms := [{ name := "n", type := basic_type__int, symtype := .definition,
               linkage := .nolink, depth := 2 }],
    blocks := [{}],
    defsTab := [{ body := 0 }] }

/--
C10.  The negative-array-dimension check applies only to compile-time
immediate values of signed integer type.  For every 64-bit pattern `n` of
an unsigned int constant dimension, the dimension is never rejected as
negative and is cast to unsigned long and used as the array length (first
conjunct, instantiated at the pattern 4294967295 in the second); a signed
int immediate whose signed reading is negative is fatal (third conjunct);
and a runtime (non-immediate) value of signed int type is not checked for
negativity at all — it is cast and yields a variable-length array (fourth
conjunct).
-/
theorem claim_C10_unsigned_dimension_never_negative :
    (∀ n : Nat,
      (resOk (array_declarator 64 none none basic_type__char false
          (c10_state (uintlit n)))).map (fun r => r.2.1) =
        some (.arrayT basic_type__char n)) ∧
    ((resOk (array_declarator 64 none none basic_type__char false
        (c10_state (uintlit 4294967295)))).map (fun r => r.2.1) =
      some (.arrayT basic_type__char 4294967295)) ∧
    (resFatal (array_declarator 64 none none basic_type__char false
        (c10_state (ilit (2 ^ 64 - 1)))) =
      some "Array dimension must be a positive number.") ∧
    ((resOk (array_declarator 64 (some 0) (some 0) basic_type__char false
        (c10_direct_state c10_direct_var))).map (fun r => r.2.1) =
      some (.vla basic_type__char 1)) :=
  ⟨fun _ => rfl, rfl, rfl, rfl⟩

/-- A formal parameter with placeholder type, as produced by identifier_list. -/
def memberPh (n : String) : Member := .mk n get_type_placeholder 0 none none

/--
A state inside an old-style function definition of `f`, right after the
parameter scope was pushed (depth 1): def->symbol is `f` with the given
formal parameter members, and the token stream holds the separate parameter
declarations up to the body opening brace.
-/
def c3_state (params : List Member) (ts : List Tok) : PState :=
  { toks := ts,
    syms := [{ name := "f", type := .func basic_type__int params,
               symtype := .definition, linkage := .external, depth := 0 }],
    nsi := { ids := [0], depth := 1 },
    nsl := { ids := [], depth := 1 },
    blocks := [{}],
    defsTab := [{ symbol := some 0, body := 0 }] }

/--
C3, counterexample.  An old-style definition whose formal parameter `a` has
no separate type declaration (the body brace follows immediately) is NOT
rejected: parameter resolution succeeds and the parameter type defaults to
int.  This contradicts the claim that the function is rejected if any
formal parameter is left without a type.
-/
theorem claim_C3_cex_untyped_parameter_defaults_to_int :
    resOk (parameter_declaration_list 64 (some 0) 0
        (.func basic_type__int [memberPh "a"])
        (c3_state [memberPh "a"] [.lbrace])) = some 0 ∧
    (resState (parameter_declaration_list 64 (some 0) 0
        (.func basic_type__int [memberPh "a"])
        (c3_state [memberPh "a"] [.lbrace]))).map (fun st => (st.symGet 0).type) =
      some (.func basic_type__int [Member.mk "a" basic_type__int 0 none (some 1)]) :=
  ⟨rfl, rfl⟩

/--
C3, amended.  For an old-style definition `int f(a, b)` with separate
declarations `int a; char b;`, each formal parameter's type is resolved
from the separate declarations and recorded in the originally declared
parameter order, with def->params listing the parameter symbols in that
same order (first two conjuncts); the resolution is keyed by name, so
declaring them in the reverse order `char b; int a;` yields the same member
types in the original parameter order (third and fourth conjuncts); a
formal parameter left without a name is fatal (fifth conjunct); and a
formal parameter left without a type is not rejected but defaults to int
(sixth conjunct).
-/
theorem claim_C3_old_style_parameter_resolution :
    ((resState (parameter_declaration_list 64 (some 0) 0
        (.func basic_type__int [memberPh "a", memberPh "b"])
        (c3_state [memberPh "a", memberPh "b"]
          [.kwInt, .ident "a", .semi, .kwChar, .ident "b", .semi, .lbrace]))).map
        (fun st => ((st.symGet 0).type, (st.defGet 0).params)) =
      some (.func basic_type__int
          [Member.mk "a" basic_type__int 0 none (some 1),
           Member.mk "b" basic_type__char 0 none (some 2)], [1, 2])) ∧
    ((resState (parameter_declaration_list 64 (some 0) 0
        (.func basic_type__int [memberPh "a", memberPh "b"])
        (c3_state [memberPh "a", memberPh "b"]
          [.kwInt, .ident "a", .semi, .kwChar, .ident "b", .semi, .lbrace]))).map
        (fun st => ((st.symGet 1).name, (st.symGet 1).type,
          (st.symGet 2).name, (st.symGet 2).type)) =
      some ("a", basic_type__int, "b", basic_type__char)) ∧
    ((resState (parameter_declaration_list 64 (some 0) 0
        (.func basic_type__int [memberPh "a", memberPh "b"])
        (c3_state [memberPh "a", memberPh "b"]
          [.kwChar, .ident "b", .semi, .kwInt, .ident "a", .semi, .lbrace]))).map
        (fun st => ((st.symGet 0).type, (st.defGet 0).params)) =
      some (.func basic_type__int
          [Member.mk "a" basic_type__int 0 none (some 2),
           Member.mk "b" basic_type__char 0 none (some 1)], [2, 1])) ∧
    ((resState (parameter_declaration_list 64 (some 0) 0
        (.func basic_type__int [memberPh "a", memberPh "b"])
        (c3_state [memberPh "a", memberPh "b"]
          [.kwChar, .ident "b", .semi, .kwInt, .ident "a", .semi, .lbrace]))).map
        (fun st => ((st.symGet 1).name, (st.symGet 1).type,
          (st.symGet 2).name, (st.symGet 2).type)) =
      some ("b", basic_type__char, "a", basic_type__int)) ∧
    (resFatal (parameter_declaration_list 64 (some 0) 0
        (.func basic_type__int [memberPh ""])
        (c3_state [memberPh ""] [.lbrace])) =
      some "Missing parameter name.") ∧
    ((resState (parameter_declaration_list 64 (some 0) 0
        (.func basic_type__int [memberPh "a"])
        (c3_state [memberPh "a"] [.lbrace]))).map (fun st => (st.symGet 0).type) =
      some (.func basic_type__int [Member.mk "a" basic_type__int 0 none (some 1)])) :=
  ⟨rfl, rfl, rfl, rfl, rfl, rfl⟩

/--
A state at the `=` dispatch of init_declarator: the declared symbol `x` has
the given kind, depth and type, and the stream holds `= 7 ;`.
-/
def c7_state (k : SymKind) (dep : Nat) (t : CType) : PState :=
  { toks := [.assign, ilit 7, .semi],
    syms := [{ name := "x", type := t, symtype := k, linkage := .nolink,
               depth := dep }],
    blocks := [{}],
    defsTab := [{ body := 0 }] }

/--
C7.  The `=` branch of init_declarator rejects fatally exactly the three
claimed cases: an extern declaration (symbol kind declaration — first
conjunct, for every depth and type), a symbol that was already defined
(which at the point of `=` is a file-scope symbol of kind definition, since
file-scope symbols enter as tentative/declaration and only become
definitions when defined — second conjunct), and a variable-length array
type (third and fourth conjuncts, at block scope and at file scope for a
tentative symbol).  Otherwise the symbol kind becomes definition and the
initializer is parsed: the fifth conjunct shows the initializer consumed,
the kind updated, and the initializer store appended; the sixth shows that
a fresh block-scope symbol of kind definition (the normal state of a just
declared local, not an already defined symbol) is accepted.
-/
theorem claim_C7_initializer_rejections :
    (∀ (dep : Nat) (t : CType),
      resFatal (init_declarator_assign none 0 0 (c7_state .declaration dep t)) =
        some "Extern symbol cannot be initialized.") ∧
    (∀ t : CType,
      resFatal (init_declarator_assign none 0 0 (c7_state .definition 0 t)) =
        some "Symbol was already defined.") ∧
    (∀ (d : Nat) (u : CType) (s : Nat),
      resFatal (init_declarator_assign none 0 0
          (c7_state .definition (d + 1) (.vla u s))) =
        some "Variable length array cannot be initialized.") ∧
    (∀ (u : CType) (s : Nat),
      resFatal (init_declarator_assign none 0 0 (c7_state .tentative 0 (.vla u s))) =
        some "Variable length array cannot be initialized.") ∧
    ((resState (init_declarator_assign none 0 0
        (c7_state .tentative 0 basic_type__int))).map (fun st =>
        ((st.symGet 0).symtype, (st.blkGet 0).effects, st.toks)) =
      some (.definition,
        [.initStore 0 { type := basic_type__int, kind := .immediate, bits := 7 }],
        [.semi])) ∧
    (resOk (init_declarator_assign none 0 0
        (c7_state .definition 2 basic_type__int)) = some 0) :=
  ⟨fun _ _ => rfl, fun _ => rfl, fun _ _ _ => rfl, fun _ _ => rfl, rfl, rfl⟩

/-- The stabilized value: a direct unsigned long held by fresh temporary symbol 1. -/
def c8_tmp_ulong : Var :=
  { type := basic_type__unsigned_long, kind := .direct, symbol := some 1 }

/-- The runtime unsigned long value of the declared variable `n` (symbol 0). -/
def c8_dir_ulong : Var :=
  { type := basic_type__unsigned_long, kind := .direct, symbol := some 0 }

/-- The runtime int value of the declared variable `n` (symbol 0). -/
def c8_dir_int : Var :=
  { type := basic_type__int, kind := .direct, symbol := some 0 }

/-- A block-scope state with a declared (non-temporary) variable `n` of type `t`. -/
def c8_var_state (t : CType) (v : Var) : PState :=
  { toks := [.lit v],
    syms := [{ name := "n", type := t, symtype := .definition,
               linkage := .nolink, depth := 2 }],
    blocks := [{}],
    defsTab := [{ body := 0 }] }

/-- A block-scope state where the dimension value is already held by a temporary. -/
def c8_temp_state : PState :=
  { toks := [.lit c8_dir_ulong],
    syms := [{ name := "", type := basic_type__unsigned_long, symtype := .temporary,
               linkage := .nolink, depth := 2 }],
    blocks := [{}],
    defsTab := [{ body := 0 }] }

/-- A block-scope state holding the whole declaration `int a[n] ;`. -/
def c8_decl_state : PState :=
  { toks := [.kwInt, .ident "a", .lbrack, .lit c8_dir_ulong, .rbrack, .semi],
    syms := [{ name := "n", type := basic_type__unsigned_long, symtype := .definition,
               linkage := .nolink, depth := 2 }],
    nsi := { ids := [0], depth := 2 },
    blocks := [{}],
    defsTab := [{ body := 0 }] }

/--
C8.  A runtime array dimension is converted to unsigned long and stabilized
in a fresh anonymous temporary: a direct unsigned long value held by a
declared (non-temporary) variable is copied into a fresh temporary (first
conjunct: the block expression becomes the temporary, which is of temporary
kind, via a single copy instruction); a direct value of another integer
type is cast into a fresh temporary of unsigned long type (second
conjunct); a value already held by a temporary is used as is, with no
instruction appended and no new symbol (third conjunct).  Declaring
`int a[n] ;` at block scope appends exactly one allocation side effect to
the block — the block effects are one copy (the stabilized length) and one
vlaAlloc, the declared type references the stable temporary (symbol 1), and
the hidden base-address temporary is recorded (fourth conjunct).
-/
theorem claim_C8_vla_dimension_stabilized_single_alloc :
    ((resState (array_declarator_length 64 (some 0) (some 0) none
        (c8_var_state basic_type__unsigned_long c8_dir_ulong))).map (fun st =>
        ((st.blkGet 0).expr, (st.symGet 1).symtype, (st.blkGet 0).effects)) =
      some (some c8_tmp_ulong, .temporary, [.copyInstr 1 c8_dir_ulong])) ∧
    ((resState (array_declarator_length 64 (some 0) (some 0) none
        (c8_var_state basic_type__int c8_dir_int))).map (fun st =>
        ((st.blkGet 0).expr, (st.symGet 1).symtype, (st.blkGet 0).effects)) =
      some (some c8_tmp_ulong, .temporary, [.castInstr 1 c8_dir_int])) ∧
    ((resState (array_declarator_length 64 (some 0) (some 0) none
        c8_temp_state)).map (fun st =>
        ((st.blkGet 0).expr, st.syms.length, (st.blkGet 0).effects)) =
      some (some c8_dir_ulong, 1, [])) ∧
    ((resState (declaration 64 (some 0) 0 c8_decl_state)).map (fun st =>
        ((st.blkGet 0).effects, (st.symGet 2).name, (st.symGet 2).type,
         (st.symGet 1).symtype, (st.symGet 2).vla_address, (st.symGet 3).type,
         st.errors)) =
      some ([.copyInstr 1 c8_dir_ulong, .vlaAlloc 2], "a",
        .vla basic_type__int 1, .temporary, some 3,
        .pointer basic_type__int false false false, [])) :=
  ⟨rfl, rfl, rfl, rfl⟩
